import Mathlib

set_option maxRecDepth 100000

/-!
Shallow embedding of `src/enhanced_generator.py` (the `EnhancedInvoiceGenerator`
pipeline): numeric token parsing, `InvoiceItem` / `InvoiceData`, the CSV row
parser `_parse_csv_row`, the per-row checks of `validate_csv_structure`, the
due-date computation `_calculate_due_date`, the template renderer
`generate_invoice_html`, and the batch loop `process_csv`.

Modelling conventions:
- Python `float` values are embedded as exact rationals (`Rat`); the decimal
  literals the parser accepts are represented exactly, and `.2f` display
  formatting is modelled by exact rational rounding.
- Python's string primitives `str.split`, `str.strip` and `str.replace` are
  embedded as structurally recursive functions on character lists, so that
  every definition evaluates inside the kernel.
- An operation that can raise an exception is embedded as `Option`/`Except`,
  with `none`/`.error` standing for the raised exception.
- The filesystem state seen by `process_csv` is an explicit argument
  (`CsvFile`); the template text and the current date (`datetime.now()`)
  are explicit arguments of the renderer.
-/

namespace GenInvoice

/-- Split a character list at every occurrence of `sep`, keeping empty
pieces, as Python `s.split(sep)` does for a one-character separator
(`"".split(sep) == [""]`). -/
def splitCh (sep : Char) : List Char → List (List Char)
  | [] => [[]]
  | c :: cs =>
    if c = sep then [] :: splitCh sep cs
    else
      match splitCh sep cs with
      | t :: ts => (c :: t) :: ts
      | [] => [[c]]

/-- Embedding of Python `s.split("|")`. -/
def pySplit (s : String) (sep : Char) : List String :=
  (splitCh sep s.data).map String.mk

/-- Embedding of Python `s.strip()`: remove leading and trailing
whitespace. -/
def pyStrip (s : String) : String :=
  String.mk (((s.data.dropWhile Char.isWhitespace).reverse.dropWhile
    Char.isWhitespace).reverse)

/-- Replace every (leftmost, non-overlapping) occurrence of `pat` in the
list, as Python `s.replace(pat, repl)` does for nonempty `pat`; the first
argument is recursion fuel, sufficient whenever it is at least the input
length. -/
def replaceCh (pat repl : List Char) : Nat → List Char → List Char
  | 0, cs => cs
  | _ + 1, [] => []
  | n + 1, c :: cs =>
    if pat.isPrefixOf (c :: cs) ∧ pat ≠ [] then
      repl ++ replaceCh pat repl n ((c :: cs).drop pat.length)
    else
      c :: replaceCh pat repl n cs

/-- Embedding of Python `s.replace(pat, repl)` for nonempty `pat` (the only
way the source calls it). -/
def pyReplace (s pat repl : String) : String :=
  String.mk (replaceCh pat.data repl.data s.data.length s.data)

/-- Numeric value of a digit-character list, most significant digit first. -/
def digitsVal (cs : List Char) : Nat :=
  cs.foldl (fun a c => a * 10 + (c.toNat - 48)) 0

/-- Embedding of Python `int(s)` on strings: strip surrounding whitespace,
then an optional sign followed by a nonempty run of decimal digits.
(Underscore digit separators and non-ASCII digits are not modelled.) -/
def pyInt (s : String) : Option Int :=
  let cs := (pyStrip s).data
  let sd : Int × List Char :=
    match cs with
    | '+' :: r => (1, r)
    | '-' :: r => (-1, r)
    | r => (1, r)
  if sd.2 ≠ [] ∧ sd.2.all Char.isDigit then some (sd.1 * digitsVal sd.2) else none

/-- Optional exponent suffix of a Python float literal (`e`/`E`, optional
sign, nonempty digits), applied to an already-parsed mantissa. -/
def pyExp (mant : Rat) (cs : List Char) : Option Rat :=
  match cs with
  | [] => some mant
  | e :: r =>
    if e = 'e' ∨ e = 'E' then
      let sd : Bool × List Char :=
        match r with
        | '+' :: r2 => (false, r2)
        | '-' :: r2 => (true, r2)
        | r2 => (false, r2)
      if sd.2 ≠ [] ∧ sd.2.all Char.isDigit then
        let k := digitsVal sd.2
        some (if sd.1 then mant / (10 : Rat) ^ k else mant * (10 : Rat) ^ k)
      else none
    else none

/-- Embedding of Python `float(s)` on finite decimal literals: strip
whitespace, optional sign, digits with an optional fractional part (at least
one digit overall), optional exponent. The special forms `inf`/`nan` are not
modelled; the value is kept as an exact rational. -/
def pyFloat (s : String) : Option Rat :=
  let cs := (pyStrip s).data
  let sd : Rat × List Char :=
    match cs with
    | '+' :: r => (1, r)
    | '-' :: r => (-1, r)
    | r => (1, r)
  let ip := sd.2.takeWhile Char.isDigit
  let r1 := sd.2.dropWhile Char.isDigit
  match r1 with
  | '.' :: r2 =>
    let fp := r2.takeWhile Char.isDigit
    let r3 := r2.dropWhile Char.isDigit
    if ip = [] ∧ fp = [] then none
    else pyExp (sd.1 * ((digitsVal (ip ++ fp) : Rat) / (10 : Rat) ^ fp.length)) r3
  | _ =>
    if ip = [] then none
    else pyExp (sd.1 * (digitsVal ip : Rat)) r1

/-- Embedding of the `InvoiceItem` dataclass (lines 25-35). -/
structure InvoiceItem where
  product : String
  quantity : Int
  price : Rat
deriving DecidableEq, Repr

/-- The `total` property of `InvoiceItem`: `quantity * price`. -/
def InvoiceItem.total (it : InvoiceItem) : Rat := it.quantity * it.price

/-- Embedding of the `InvoiceData` dataclass (lines 38-49). -/
structure InvoiceData where
  invoice_no : String
  date : String
  bill_to : String
  contact_no : String
  billing_address : String
  items : List InvoiceItem
  payment_method : String
  status : String := "Pending"
deriving DecidableEq, Repr

/-- The `subtotal` property: sum of the item totals (lines 51-53). -/
def InvoiceData.subtotal (inv : InvoiceData) : Rat :=
  (inv.items.map InvoiceItem.total).sum

/-- The `tax_amount` property: fixed at zero (lines 55-57). -/
def InvoiceData.tax_amount (_ : InvoiceData) : Rat := 0

/-- The `total_amount` property: `subtotal + tax_amount` (lines 59-61). -/
def InvoiceData.total_amount (inv : InvoiceData) : Rat :=
  inv.subtotal + inv.tax_amount

/-- One CSV record as handed to `_parse_csv_row` by `csv.DictReader`: the
nine required columns are present as strings; `status` is `none` when the
CSV has no `status` column at all. -/
structure Row where
  invoice_no : String
  date : String
  bill_to : String
  contact_no : String
  billing_address : String
  product : String
  quantity : String
  price : String
  payment_method : String
  status : Option String := none
deriving DecidableEq, Repr

/-- The quantity taken at the current position (line 120):
`int(quantities[i]) if i < len(quantities) else 1`, acting on the list of
remaining quantity tokens; `none` models the `ValueError` of `int()`. -/
def qtyTok : List String → Option Int
  | [] => some 1
  | q :: _ => pyInt q

/-- The price taken at the current position (line 121):
`float(prices[i]) if i < len(prices) else 0.0`, acting on the list of
remaining price tokens; `none` models the `ValueError` of `float()`. -/
def priceTok : List String → Option Rat
  | [] => some 0
  | r :: _ => pyFloat r

/-- The item-building loop of `_parse_csv_row` (lines 118-124): iterate the
product tokens; at position `i` take `int(quantities[i])` if it exists else
`1`, and `float(prices[i])` if it exists else `0.0`; `none` models the
`ValueError` raised by a non-numeric token. -/
def buildItems : List String → List String → List String → Option (List InvoiceItem)
  | [], _, _ => some []
  | p :: ps, qs, rs =>
    match qtyTok qs, priceTok rs, buildItems ps qs.tail rs.tail with
    | some q, some pr, some rest => some (⟨pyStrip p, q, pr⟩ :: rest)
    | _, _, _ => none

/-- Embedding of `_parse_csv_row` (lines 111-135): split the three
pipe-delimited fields, build the items, and assemble the `InvoiceData`
record with `status = row.get("status", "Pending")`. `none` models a raised
exception (non-numeric token). -/
def _parse_csv_row (row : Row) : Option InvoiceData :=
  (buildItems (pySplit row.product '|') (pySplit row.quantity '|')
      (pySplit row.price '|')).map
    (fun items =>
      { invoice_no := row.invoice_no
        date := row.date
        bill_to := row.bill_to
        contact_no := row.contact_no
        billing_address := row.billing_address
        items := items
        payment_method := row.payment_method
        status := row.status.getD "Pending" })

/-- The per-row checks of `validate_csv_structure` (lines 357-377): issues
reported for row `n` — blank `invoice_no`, blank `bill_to`, a quantity token
that `int()` rejects, a price token that `float()` rejects. -/
def validate_csv_row (n : Nat) (row : Row) : List String :=
  (if pyStrip row.invoice_no = "" then ["Row " ++ toString n ++ ": Missing invoice number"] else []) ++
  (if pyStrip row.bill_to = "" then ["Row " ++ toString n ++ ": Missing bill_to information"] else []) ++
  (if (pySplit row.quantity '|').all (fun q => (pyInt (pyStrip q)).isSome) then []
   else ["Row " ++ toString n ++ ": Invalid quantity values"]) ++
  (if (pySplit row.price '|').all (fun p => (pyFloat (pyStrip p)).isSome) then []
   else ["Row " ++ toString n ++ ": Invalid price values"])

/-- Gregorian leap-year test, as `datetime` implements it. -/
def leapYear (y : Nat) : Bool :=
  y % 4 = 0 && (y % 100 != 0 || y % 400 = 0)

/-- Number of days in month `m` of year `y`. -/
def monthLen (y m : Nat) : Nat :=
  if m = 2 then (if leapYear y then 29 else 28)
  else if m = 4 ∨ m = 6 ∨ m = 9 ∨ m = 11 then 30
  else 31

/-- A calendar date, as held by a `datetime` value parsed from `YYYY-MM-DD`. -/
structure Ymd where
  y : Nat
  m : Nat
  d : Nat
deriving DecidableEq, Repr

/-- Embedding of `datetime.strptime(s, "%Y-%m-%d")` (line 153): three
dash-separated fields, `%Y` exactly four digits, `%m`/`%d` one or two
digits, with month and day validated against the calendar; `none` models the
`ValueError` raised otherwise (years below 1 are also rejected by
`datetime`). -/
def strptimeYmd (s : String) : Option Ymd :=
  match pySplit s '-' with
  | [ys, ms, ds] =>
    if ys.data.length = 4 ∧ ys.data.all Char.isDigit
        ∧ 1 ≤ ms.data.length ∧ ms.data.length ≤ 2 ∧ ms.data.all Char.isDigit
        ∧ 1 ≤ ds.data.length ∧ ds.data.length ≤ 2 ∧ ds.data.all Char.isDigit then
      let y := digitsVal ys.data
      let m := digitsVal ms.data
      let d := digitsVal ds.data
      if 1 ≤ y ∧ 1 ≤ m ∧ m ≤ 12 ∧ 1 ≤ d ∧ d ≤ monthLen y m then
        some ⟨y, m, d⟩
      else none
    else none
  | _ => none

/-- Left-pad the decimal form of `n` with zeros to width `w`. -/
def padNum (w n : Nat) : String :=
  String.mk (List.replicate (w - (toString n).length) '0') ++ toString n

/-- Embedding of `due_date.strftime("%Y-%m-%d")` (line 155), zero-padding
year to four and month/day to two digits. (CPython delegates `%Y` to the
platform; for years below 1000 some platforms omit the zero padding. Every
date reachable here from a parsed four-digit year has this form for
1000 ≤ y ≤ 9999, and we use the padded form throughout.) -/
def strftimeYmd (dt : Ymd) : String :=
  padNum 4 dt.y ++ "-" ++ padNum 2 dt.m ++ "-" ++ padNum 2 dt.d

/-- The calendar successor of a date. -/
def nextDay (dt : Ymd) : Ymd :=
  if dt.d < monthLen dt.y dt.m then ⟨dt.y, dt.m, dt.d + 1⟩
  else if dt.m < 12 then ⟨dt.y, dt.m + 1, 1⟩
  else ⟨dt.y + 1, 1, 1⟩

/-- Embedding of `date_obj + timedelta(days=n)`: `n` calendar days later. -/
def addDays : Ymd → Nat → Ymd
  | dt, 0 => dt
  | dt, n + 1 => addDays (nextDay dt) n

/-- Embedding of `_calculate_due_date` (lines 150-157): parse the issue
date, add `days`, and format the result; an unparseable issue date is
returned verbatim (the `except ValueError` branch). `datetime` cannot
represent years beyond 9999, so when the addition passes 9999-12-31 the
`+ timedelta` raises `OverflowError` — which `except ValueError` does NOT
catch; `none` models that escaping exception. -/
def _calculate_due_date (issue_date : String) (days : Nat := 30) : Option String :=
  match strptimeYmd issue_date with
  | none => some issue_date
  | some dt =>
    let dt2 := addDays dt days
    if dt2.y ≤ 9999 then some (strftimeYmd dt2) else none

/-- Two-digit zero-padded rendering of `n < 100`. -/
def pad2 (n : Nat) : String :=
  (if n < 10 then "0" else "") ++ toString n

/-- Round a rational to the nearest integer, ties to even — the rounding of
Python's `format`. -/
def roundHalfEven (q : Rat) : Int :=
  let f := q.floor
  if q - f < mkRat 1 2 then f
  else if mkRat 1 2 < q - f then f + 1
  else if f % 2 = 0 then f else f + 1

/-- Embedding of the `f"{x:.2f}"` formatting used by the renderer, on the
exact rational model of the value (Python applies the same rounding to the
binary-float approximation; negative zero is rendered without sign here). -/
def fmt2 (q : Rat) : String :=
  let n := roundHalfEven (Rat.mul q 100)
  (if n < 0 then "-" else "") ++ toString (n.natAbs / 100) ++ "." ++ pad2 (n.natAbs % 100)

/-- Embedding of `_generate_items_html` (lines 137-148): one `<tr>` block
per item, product, quantity, formatted unit price and line total, in input
order. -/
def _generate_items_html (items : List InvoiceItem) : String :=
  items.foldl
    (fun acc it =>
      acc ++ "\n                        <tr>\n                            <td class=\"product-name\">"
        ++ it.product
        ++ "</td>\n                            <td class=\"text-center\">"
        ++ toString it.quantity
        ++ "</td>\n                            <td class=\"text-right font-mono\">৳"
        ++ fmt2 it.price
        ++ "</td>\n                            <td class=\"text-right font-mono\">৳"
        ++ fmt2 it.total
        ++ "</td>\n                        </tr>")
    ""

/-- The `status_colors` lookup of `generate_invoice_html` (lines 170-176):
Paid, Pending, Overdue, Draft; anything else gets the gray default. -/
def status_color (status : String) : String :=
  if status = "Paid" then "#10b981"
  else if status = "Pending" then "#f59e0b"
  else if status = "Overdue" then "#ef4444"
  else if status = "Draft" then "#64748b"
  else "#64748b"

/-- The `replacements` dictionary of `generate_invoice_html` (lines
179-194), in insertion order; `today` is the value of
`datetime.now().strftime("%Y-%m-%d")` at call time and `due_date` the
already-computed due date. -/
def replacements (today due_date : String) (inv : InvoiceData) : List (String × String) :=
  [("{invoice_no}", inv.invoice_no),
   ("{generated_date}", today),
   ("{date}", inv.date),
   ("{due_date}", due_date),
   ("{bill_to}", inv.bill_to),
   ("{contact_no}", inv.contact_no),
   ("{billing_address}", inv.billing_address),
   ("{items_rows}", _generate_items_html inv.items),
   ("{subtotal}", "৳" ++ fmt2 inv.subtotal),
   ("{tax_amount}", "৳" ++ fmt2 inv.tax_amount),
   ("{total_bill}", "৳" ++ fmt2 inv.total_amount),
   ("{payment_method}", inv.payment_method),
   ("{status}", inv.status),
   ("__status_color__", status_color inv.status)]

/-- Embedding of `generate_invoice_html` (lines 159-200): compute the due
date, then apply each replacement in order to the template text. The
template string and the current date are explicit arguments (the source
reads the template file and the clock); `none` models the `OverflowError`
that `_calculate_due_date` can let escape. -/
def generate_invoice_html (template today : String) (inv : InvoiceData) : Option String :=
  (_calculate_due_date inv.date 30).map
    (fun due =>
      (replacements today due inv).foldl (fun acc pr => pyReplace acc pr.1 pr.2) template)

/-- One entry of the `results["errors"]` list: the source stores the
formatted strings `f"Error processing row {row_num}: {e}"` and
`f"Error reading CSV file: {e}"`; the embedding keeps the row number and a
short stand-in for the exception text `e`. -/
inductive BatchError where
  | rowError (rowNumber : Nat) (message : String)
  | fileError (message : String)
deriving DecidableEq, Repr

/-- The `results` accumulator of `process_csv` (lines 253-259). -/
structure Results where
  generated_pdfs : List String
  generated_previews : List String
  errors : List BatchError
  total_processed : Nat
  total_amount : Rat
deriving DecidableEq, Repr

/-- Path of the HTML preview written by `save_html_preview` (lines
237-246): `output_dir` joined with `preview_<invoice_no with / -> _>.html`. -/
def preview_path (output_dir invoice_no : String) : String :=
  output_dir ++ "/preview_" ++ pyReplace invoice_no "/" "_" ++ ".html"

/-- Path of the PDF written by `generate_pdf` (lines 202-235, 282-284). -/
def pdf_path (output_dir invoice_no : String) : String :=
  output_dir ++ "/invoice_" ++ pyReplace invoice_no "/" "_" ++ ".pdf"

/-- The state of the input path as `process_csv` can observe it:
no file at the path (`os.path.exists` false), an existing file whose
`open`/read raises, or a readable file already decoded into its data rows. -/
inductive CsvFile where
  | missing
  | unreadable
  | content (rows : List Row)

/-- The row loop of `process_csv` (lines 265-293), one call per remaining
row, `n` the 1-based number of the first remaining row. Per row: parse
(failure → error entry, continue); on success bump `total_processed` and
`total_amount` FIRST, then render, then write the preview — `writeFails n`
models `save_html_preview` raising for that row (I/O failure), caught by
the row-level handler — then attempt the PDF, `pdfOk n` modelling
`generate_pdf` returning a path rather than `None` (WeasyPrint available
and no render error; its failure adds no error entry). -/
def processRows (template today output_dir : String) (writeFails pdfOk : Nat → Bool) :
    Nat → List Row → Results
  | _, [] => ⟨[], [], [], 0, 0⟩
  | n, row :: rest =>
    let r := processRows template today output_dir writeFails pdfOk (n + 1) rest
    match _parse_csv_row row with
    | none => { r with errors := .rowError n "malformed row" :: r.errors }
    | some inv =>
      match generate_invoice_html template today inv with
      | none =>
        { r with
            total_processed := r.total_processed + 1
            total_amount := Rat.add inv.total_amount r.total_amount
            errors := .rowError n "render failed" :: r.errors }
      | some _html =>
        if writeFails n then
          { r with
              total_processed := r.total_processed + 1
              total_amount := Rat.add inv.total_amount r.total_amount
              errors := .rowError n "preview write failed" :: r.errors }
        else
          { generated_pdfs :=
              if pdfOk n then pdf_path output_dir inv.invoice_no :: r.generated_pdfs
              else r.generated_pdfs
            generated_previews := preview_path output_dir inv.invoice_no :: r.generated_previews
            errors := r.errors
            total_processed := r.total_processed + 1
            total_amount := Rat.add inv.total_amount r.total_amount }

/-- Embedding of `process_csv` (lines 248-300). A missing input file makes
the source `raise FileNotFoundError(...)` before any `try` (line 250-251):
`.error` models that escaping exception. An existing file whose read raises
is caught by the outer handler, producing the accumulator with the single
file-level error entry. Otherwise the row loop runs from row number 1. -/
def process_csv (template today output_dir csv_file_path : String)
    (writeFails pdfOk : Nat → Bool) : CsvFile → Except String Results
  | .missing => .error ("CSV file not found: " ++ csv_file_path)
  | .unreadable => .ok ⟨[], [], [.fileError "Error reading CSV file"], 0, 0⟩
  | .content rows => .ok (processRows template today output_dir writeFails pdfOk 1 rows)

end GenInvoice

namespace GenInvoice

/-- The spec's end-to-end example row: two pipe-delimited items. -/
def rowEx : Row :=
  { invoice_no := "INV-001"
    date := "2025-01-15"
    bill_to := "John Smith"
    contact_no := "555-0100"
    billing_address := "1 Main St"
    product := "Web Development|Hosting"
    quantity := "1|12"
    price := "1500.00|25.00"
    payment_method := "Credit Card" }

/-- The invoice `rowEx` parses to. -/
def invEx : InvoiceData :=
  { invoice_no := "INV-001"
    date := "2025-01-15"
    bill_to := "John Smith"
    contact_no := "555-0100"
    billing_address := "1 Main St"
    items := [⟨"Web Development", 1, 1500⟩, ⟨"Hosting", 12, 25⟩]
    payment_method := "Credit Card"
    status := "Pending" }

/-- A row whose price token is not numeric: `_parse_csv_row` raises. -/
def rowBad : Row :=
  { rowEx with invoice_no := "INV-002", price := "abc" }

/-- A row whose `status` column is present but blank. -/
def rowStatusBlank : Row :=
  { rowEx with invoice_no := "INV-003", status := some "" }

/-- A row whose `invoice_no` and `bill_to` trim to the empty string. -/
def rowBlankId : Row :=
  { rowEx with invoice_no := " ", bill_to := "" }

/-- A single-item row with negative quantity and price tokens. -/
def rowNeg : Row :=
  { rowEx with
      invoice_no := "INV-004"
      product := "Widget"
      quantity := "-1"
      price := "-2.5" }

/-- The invoice `rowNeg` parses to: a negative quantity and a negative
unit price. -/
def invNeg : InvoiceData :=
  { invEx with invoice_no := "INV-004", items := [⟨"Widget", -1, mkRat (-5) 2⟩] }

/-- Parse success together with render success for a row: the row parses,
and the renderer returns a document (its due-date computation does not
overflow). -/
def RowOk (template today : String) (row : Row) : Prop :=
  ∃ inv, _parse_csv_row row = some inv ∧
    (generate_invoice_html template today inv).isSome = true

/-- The preview path a row contributes when processed successfully. -/
def previewOf (output_dir : String) (row : Row) : Option String :=
  (_parse_csv_row row).map (fun inv => preview_path output_dir inv.invoice_no)


example : pyInt "2" = some 2 := by decide
example : pyInt " -13 " = some (-13) := by decide
example : pyInt "abc" = none := by decide
example : pyFloat "3.5" = some (mkRat 7 2) := by with_unfolding_all decide
example : pyFloat "-2.5" = some (mkRat (-5) 2) := by with_unfolding_all decide
example : pyFloat "1500.00" = some 1500 := by with_unfolding_all decide
example : pyFloat "1e2" = some 100 := by with_unfolding_all decide
example : pyFloat ".5" = some (mkRat 1 2) := by with_unfolding_all decide
example : pyFloat "." = none := by with_unfolding_all decide
example : pyFloat "abc" = none := by decide
example : pySplit "a|b" '|' = ["a", "b"] := by decide
example : pySplit "" '|' = [""] := by decide
example : pySplit "a||b" '|' = ["a", "", "b"] := by decide
example : pyStrip "  x y " = "x y" := by decide
example : pyReplace "IN/V/1" "/" "_" = "IN_V_1" := by decide
example : pyReplace "{a} and {a}" "{a}" "Z" = "Z and Z" := by decide
example : strptimeYmd "2025-01-15" = some ⟨2025, 1, 15⟩ := by decide
example : strptimeYmd "2025-1-15" = some ⟨2025, 1, 15⟩ := by decide
example : strptimeYmd "2025-02-30" = none := by decide
example : strptimeYmd "not-a-date" = none := by decide
example : _calculate_due_date "2025-01-15" 30 = some "2025-02-14" := by decide
example : _calculate_due_date "hello" 30 = some "hello" := by decide
example : _calculate_due_date "9999-12-31" 30 = none := by decide
example : fmt2 (mkRat 7 2) = "3.50" := by with_unfolding_all decide
example : fmt2 1500 = "1500.00" := by with_unfolding_all decide
example : fmt2 (mkRat (-5) 2) = "-2.50" := by with_unfolding_all decide

example : _parse_csv_row rowEx = some invEx := by with_unfolding_all rfl
example : _parse_csv_row rowBad = none := by with_unfolding_all rfl
example : invEx.subtotal = 1800 := by with_unfolding_all decide
example :
    processRows "T" "2025-06-01" "out" (fun _ => false) (fun _ => false) 1 [rowEx, rowBad, rowEx] =
      ⟨[], ["out/preview_INV-001.html", "out/preview_INV-001.html"],
        [.rowError 2 "malformed row"], 2, 3600⟩ := by
  with_unfolding_all rfl

end GenInvoice

namespace GenInvoice

/-- C1 counterexample: for an input path naming no existing file,
`process_csv` does NOT return a `GenerationOutcome` — the source executes
`raise FileNotFoundError(...)` (line 250-251) before entering its `try`
block, so the exception escapes to the caller, modelled by `.error`. -/
theorem claim1_counterexample :
    process_csv "T" "2025-06-01" "out" "missing.csv" (fun _ => false) (fun _ => false)
      CsvFile.missing = .error "CSV file not found: missing.csv" := rfl

/-- C1 amended: a missing input file makes `process_csv` raise
`FileNotFoundError` (it does not return an outcome); an input file that
exists but whose read raises is reported as an otherwise-empty outcome
with a single error entry. -/
theorem claim1_amended (template today output_dir csv_file_path : String)
    (writeFails pdfOk : Nat → Bool) :
    process_csv template today output_dir csv_file_path writeFails pdfOk .missing =
        .error ("CSV file not found: " ++ csv_file_path) ∧
    process_csv template today output_dir csv_file_path writeFails pdfOk .unreadable =
        .ok ⟨[], [], [.fileError "Error reading CSV file"], 0, 0⟩ :=
  ⟨rfl, rfl⟩

/-- C8: for every invoice, `subtotal` is exactly the sum of
`quantity_i * price_i` over the items, `tax_amount` is `0`, and
`total_amount` equals `subtotal + tax_amount`, hence equals `subtotal`. -/
theorem claim8_totals (inv : InvoiceData) :
    inv.subtotal = (inv.items.map (fun it => (it.quantity : Rat) * it.price)).sum ∧
    inv.tax_amount = 0 ∧
    inv.total_amount = inv.subtotal + inv.tax_amount ∧
    inv.total_amount = inv.subtotal := by
  refine ⟨rfl, rfl, rfl, ?_⟩
  simp [InvoiceData.total_amount, InvoiceData.tax_amount]

/-- C7 counterexample: a row whose `status` column is present but blank
parses to an invoice with `status = ""`, not `"Pending"` — the source's
`row.get("status", "Pending")` only substitutes the default when the key is
absent. -/
theorem claim7_counterexample :
    (_parse_csv_row rowStatusBlank).map InvoiceData.status = some "" ∧
    ("" : String) ≠ "Pending" := by
  refine ⟨by with_unfolding_all rfl, by decide⟩

/-- C7 amended: `status` defaults to `"Pending"` only when the status
column is absent from the mapping; any present status string — blank or
unrecognized — is passed through unchanged into the invoice. -/
theorem claim7_amended (row : Row) (inv : InvoiceData)
    (h : _parse_csv_row row = some inv) :
    (row.status = none → inv.status = "Pending") ∧
    (∀ s, row.status = some s → inv.status = s) := by
  rcases Option.map_eq_some'.mp h with ⟨items, _, hinv⟩
  subst hinv
  constructor
  · intro hn
    simp [hn]
  · intro s hs
    simp [hs]

/-- C7 witness: the amended claim applied to a concrete row with no status
column yields the default status. -/
theorem claim7_witness : invEx.status = "Pending" :=
  (claim7_amended rowEx invEx (by with_unfolding_all rfl)).1 rfl

/-- C9 counterexample: `"9999-12-31"` parses as `YYYY-MM-DD`, yet the due
date is not issue date plus 30 days — `datetime` cannot represent year
10000, the addition raises `OverflowError`, and `_calculate_due_date`'s
`except ValueError` does not catch it, so the call raises instead of
returning a date. -/
theorem claim9_counterexample :
    strptimeYmd "9999-12-31" = some ⟨9999, 12, 31⟩ ∧
    _calculate_due_date "9999-12-31" 30 = none := by
  refine ⟨by decide, by decide⟩

/-- C9 amended: for an issue date parsing as `YYYY-MM-DD` whose 30-day
shift stays within `datetime`'s year range, the due date is the issue date
plus 30 days formatted as `YYYY-MM-DD` (in particular `2025-01-15` gives
`2025-02-14`); an unparseable issue date is returned verbatim; an issue
date within 30 days of 9999-12-31 makes the computation raise. -/
theorem claim9_amended :
    (∀ s, strptimeYmd s = none → _calculate_due_date s 30 = some s) ∧
    (∀ s dt, strptimeYmd s = some dt → (addDays dt 30).y ≤ 9999 →
        _calculate_due_date s 30 = some (strftimeYmd (addDays dt 30))) ∧
    (∀ s dt, strptimeYmd s = some dt → 9999 < (addDays dt 30).y →
        _calculate_due_date s 30 = none) ∧
    _calculate_due_date "2025-01-15" 30 = some "2025-02-14" := by
  refine ⟨fun s h => ?_, fun s dt h h2 => ?_, fun s dt h h2 => ?_, by decide⟩
  · unfold _calculate_due_date
    rw [h]
  · unfold _calculate_due_date
    rw [h]
    simp [h2]
  · unfold _calculate_due_date
    rw [h]
    simp [Nat.not_le.mpr h2]

/-- C9 witness: the amended claim applied to the concrete issue date
`2025-03-01`. -/
theorem claim9_witness :
    _calculate_due_date "2025-03-01" 30 = some (strftimeYmd (addDays ⟨2025, 3, 1⟩ 30)) :=
  claim9_amended.2.1 "2025-03-01" ⟨2025, 3, 1⟩ (by decide) (by decide)

/-- C10: in `process_csv` the counters are bumped right after parsing
(lines 269-270), before the preview write; a row that parses and renders
but whose preview write raises is counted in `total_processed`, adds its
amount to `total_amount`, and is recorded in `errors`, while contributing
no preview path — the per-row update is not atomic with row-level
failure. -/
theorem claim10_nonatomic (template today output_dir csv_file_path : String)
    (pdfOk : Nat → Bool) (row : Row) (inv : InvoiceData)
    (hp : _parse_csv_row row = some inv)
    (hr : (generate_invoice_html template today inv).isSome = true) :
    process_csv template today output_dir csv_file_path (fun _ => true) pdfOk
        (.content [row]) =
      .ok ⟨[], [], [.rowError 1 "preview write failed"], 1, inv.total_amount⟩ := by
  rcases Option.isSome_iff_exists.mp hr with ⟨html, hh⟩
  simp [process_csv, processRows, hp, hh]
  exact Rat.add_zero inv.total_amount

/-- C10 witness: the non-atomic update at a concrete one-row batch whose
preview write fails. -/
theorem claim10_witness :
    process_csv "T" "2025-06-01" "out" "data.csv" (fun _ => true) (fun _ => false)
        (.content [rowEx]) =
      .ok ⟨[], [], [.rowError 1 "preview write failed"], 1, invEx.total_amount⟩ :=
  claim10_nonatomic "T" "2025-06-01" "out" "data.csv" (fun _ => false) rowEx invEx
    (by with_unfolding_all rfl) (by with_unfolding_all rfl)

end GenInvoice

namespace GenInvoice

/-- C3 counterexample: a row whose `invoice_no` trims to empty (and whose
`bill_to` is empty) is parsed successfully by `_parse_csv_row` — the parser
never inspects those fields, so no malformed-row error is raised. -/
theorem claim3_counterexample :
    pyStrip rowBlankId.invoice_no = "" ∧ pyStrip rowBlankId.bill_to = "" ∧
    (_parse_csv_row rowBlankId).isSome = true := by
  refine ⟨by decide, by decide, by with_unfolding_all rfl⟩

/-- C3 amended: `_parse_csv_row` does not reject blank `invoice_no` or
`bill_to` — its success is independent of those two fields; the blank
identity fields are instead reported by the separate
`validate_csv_structure` pass, which records an issue for such a row. -/
theorem claim3_amended (row : Row) (n : Nat)
    (h : pyStrip row.invoice_no = "" ∨ pyStrip row.bill_to = "") :
    (∀ s t, (_parse_csv_row { row with invoice_no := s, bill_to := t }).isSome =
        (_parse_csv_row row).isSome) ∧
    validate_csv_row n row ≠ [] := by
  constructor
  · intro s t
    unfold _parse_csv_row
    cases hb : buildItems (pySplit row.product '|') (pySplit row.quantity '|')
        (pySplit row.price '|') <;> simp [hb]
  · rcases h with h | h <;>
    · by_cases c1 : pyStrip row.invoice_no = "" <;>
      by_cases c2 : pyStrip row.bill_to = "" <;>
      by_cases c3 : ((pySplit row.quantity '|').all fun q => (pyInt (pyStrip q)).isSome) = true <;>
      by_cases c4 : ((pySplit row.price '|').all fun p => (pyFloat (pyStrip p)).isSome) = true <;>
      simp_all [validate_csv_row]

/-- C3 witness: the amended claim at the concrete blank-identity row. -/
theorem claim3_witness : validate_csv_row 1 rowBlankId ≠ [] :=
  (claim3_amended rowBlankId 1 (Or.inl (by decide))).2

/-- C6 counterexample: a row whose quantity token parses to `-1` and whose
price token parses to `-2.5` is accepted by `_parse_csv_row`, which
constructs an invoice holding the negative quantity and negative unit
price — no parse error is raised. -/
theorem claim6_counterexample :
    _parse_csv_row rowNeg = some invNeg ∧
    invNeg.items = [⟨"Widget", -1, mkRat (-5) 2⟩] ∧
    (-1 : Int) < 0 ∧ mkRat (-5) 2 < 0 := by
  refine ⟨by with_unfolding_all rfl, by with_unfolding_all rfl, by decide, by decide⟩

/-- C6 amended: `_parse_csv_row` fails only on tokens that do not parse as
numbers; a quantity or price token parsing to a negative number is
accepted, and the invoice is built with that negative value. -/
theorem claim6_amended (row : Row) (p q r : String) (qv : Int) (rv : Rat)
    (hp : pySplit row.product '|' = [p])
    (hq : pySplit row.quantity '|' = [q])
    (hr : pySplit row.price '|' = [r])
    (hqv : pyInt q = some qv) (hrv : pyFloat r = some rv)
    (hneg : qv < 0 ∨ rv < 0) :
    _parse_csv_row row = some
      { invoice_no := row.invoice_no
        date := row.date
        bill_to := row.bill_to
        contact_no := row.contact_no
        billing_address := row.billing_address
        items := [⟨pyStrip p, qv, rv⟩]
        payment_method := row.payment_method
        status := row.status.getD "Pending" } := by
  unfold _parse_csv_row
  rw [hp, hq, hr]
  simp [buildItems, qtyTok, priceTok, hqv, hrv]

/-- C6 witness: the amended claim at the concrete negative-token row. -/
theorem claim6_witness :
    _parse_csv_row rowNeg = some
      { invoice_no := rowNeg.invoice_no
        date := rowNeg.date
        bill_to := rowNeg.bill_to
        contact_no := rowNeg.contact_no
        billing_address := rowNeg.billing_address
        items := [⟨pyStrip "Widget", -1, mkRat (-5) 2⟩]
        payment_method := rowNeg.payment_method
        status := rowNeg.status.getD "Pending" } :=
  claim6_amended rowNeg "Widget" "-1" "-2.5" (-1) (mkRat (-5) 2)
    (by decide) (by decide) (by decide)
    (by decide) (by with_unfolding_all decide) (Or.inl (by decide))

/-- C5 counterexample: rendering the same template against the same invoice
is not deterministic in (template, invoice) alone — the
`{generated_date}` placeholder is filled from `datetime.now()`, so calls on
different days produce different bytes. -/
theorem claim5_counterexample :
    generate_invoice_html "{generated_date}" "2025-01-01" invEx ≠
      generate_invoice_html "{generated_date}" "2025-01-02" invEx := by
  with_unfolding_all decide

/-- C5 amended: rendering is a deterministic function of (template,
invoice, current date) and raises no exception whenever the invoice's
due-date computation does not overflow; but the output genuinely depends on
the current date (via the `{generated_date}` placeholder, filled from the
clock), so it is not a pure function of (template, invoice) alone — and the
source also re-reads the template file on each call. -/
theorem claim5_amended :
    (∀ template today inv, (_calculate_due_date inv.date 30).isSome = true →
        (generate_invoice_html template today inv).isSome = true) ∧
    (∃ template inv d1 d2,
        generate_invoice_html template d1 inv ≠ generate_invoice_html template d2 inv) := by
  constructor
  · intro t td inv h
    rcases Option.isSome_iff_exists.mp h with ⟨due, hd⟩
    unfold generate_invoice_html
    rw [hd]
    rfl
  · exact ⟨"{generated_date}", invEx, "2025-01-01", "2025-01-02",
      by with_unfolding_all decide⟩

/-- C5 witness: the amended claim's no-exception part at a concrete
template, date and invoice. -/
theorem claim5_witness :
    (generate_invoice_html "T" "2025-06-01" invEx).isSome = true :=
  claim5_amended.1 "T" "2025-06-01" invEx (by decide)

end GenInvoice

namespace GenInvoice

/-- Index lookup commutes with `tail`: position `i` of the tail is position
`i + 1` of the list. -/
theorem tail_get (l : List α) (i : Nat) : l.tail[i]? = l[i + 1]? := by
  cases l <;> simp

/-- Full characterisation of the item-building loop: when it succeeds, one
item per product token, the quantity at `i` parsed from the quantity token
at `i` when present (else the default `1`), likewise the price (default
`0`). -/
theorem buildItems_spec (ps : List String) : ∀ (qs rs : List String)
    (items : List InvoiceItem), buildItems ps qs rs = some items →
    items.length = ps.length ∧
    ∀ (i : Nat) (itm : InvoiceItem), items[i]? = some itm →
      ps[i]?.map pyStrip = some itm.product ∧
      (∀ q, qs[i]? = some q → pyInt q = some itm.quantity) ∧
      (qs[i]? = none → itm.quantity = 1) ∧
      (∀ r, rs[i]? = some r → pyFloat r = some itm.price) ∧
      (rs[i]? = none → itm.price = 0) := by
  induction ps with
  | nil =>
    intro qs rs items h
    simp [buildItems] at h
    subst h
    refine ⟨rfl, fun i itm hi => ?_⟩
    simp at hi
  | cons p ps ih =>
    intro qs rs items h
    rcases hoq : qtyTok qs with _ | qv
    · simp [buildItems, hoq] at h
    rcases hop : priceTok rs with _ | pv
    · simp [buildItems, hoq, hop] at h
    rcases hrec : buildItems ps qs.tail rs.tail with _ | rest
    · simp [buildItems, hoq, hop, hrec] at h
    simp [buildItems, hoq, hop, hrec] at h
    subst h
    obtain ⟨ihlen, ihspec⟩ := ih qs.tail rs.tail rest hrec
    refine ⟨by simp [ihlen], fun i itm hi => ?_⟩
    cases i with
    | zero =>
      simp at hi
      subst hi
      refine ⟨by simp, fun q hq => ?_, fun hq => ?_, fun r hr => ?_, fun hr => ?_⟩
      · cases qs with
        | nil => simp at hq
        | cons q0 qs2 =>
          simp at hq
          subst hq
          simpa [qtyTok] using hoq
      · cases qs with
        | nil =>
          simp [qtyTok] at hoq
          simp [hoq]
        | cons q0 qs2 => simp at hq
      · cases rs with
        | nil => simp at hr
        | cons r0 rs2 =>
          simp at hr
          subst hr
          simpa [priceTok] using hop
      · cases rs with
        | nil =>
          simp [priceTok] at hop
          simp [hop]
        | cons r0 rs2 => simp at hr
    | succ i =>
      simp at hi
      obtain ⟨hprod, hq1, hq2, hr1, hr2⟩ := ihspec i itm hi
      refine ⟨by simpa using hprod, fun q hq => ?_, fun hq => ?_,
        fun r hr => ?_, fun hr => ?_⟩
      · exact hq1 q ((tail_get qs i).trans hq)
      · exact hq2 ((tail_get qs i).trans hq)
      · exact hr1 r ((tail_get rs i).trans hr)
      · exact hr2 ((tail_get rs i).trans hr)

/-- C4: for every row that parses, there is one line item per token of
`product` split on the pipe; the item at position `i` takes its quantity
from the parsed quantity token at `i` when one exists and defaults to `1`
otherwise, and its price from the parsed price token at `i` when one
exists and defaults to `0.0` otherwise (so quantity/price tokens beyond
the product list are ignored). -/
theorem claim4_zip (row : Row) (inv : InvoiceData)
    (h : _parse_csv_row row = some inv) :
    inv.items.length = (pySplit row.product '|').length ∧
    ∀ (i : Nat) (itm : InvoiceItem), inv.items[i]? = some itm →
      (pySplit row.product '|')[i]?.map pyStrip = some itm.product ∧
      (∀ q, (pySplit row.quantity '|')[i]? = some q → pyInt q = some itm.quantity) ∧
      ((pySplit row.quantity '|')[i]? = none → itm.quantity = 1) ∧
      (∀ r, (pySplit row.price '|')[i]? = some r → pyFloat r = some itm.price) ∧
      ((pySplit row.price '|')[i]? = none → itm.price = 0) := by
  rcases Option.map_eq_some'.mp h with ⟨items, hb, hinv⟩
  subst hinv
  simpa using buildItems_spec (pySplit row.product '|') (pySplit row.quantity '|')
    (pySplit row.price '|') items hb

/-- C4 witness: the asymmetric zip at the concrete two-item example row. -/
theorem claim4_witness :
    invEx.items.length = (pySplit rowEx.product '|').length :=
  (claim4_zip rowEx invEx (by with_unfolding_all rfl)).1

end GenInvoice

namespace GenInvoice

/-- The row loop over a block of rows that all parse and render, with no
preview-write failures: no error entries, every row counted, and one
preview path per row, in order. -/
theorem processRows_allOk (template today output_dir : String) (pdfOk : Nat → Bool)
    (rows : List Row) (h : ∀ r ∈ rows, RowOk template today r) : ∀ n : Nat,
    (processRows template today output_dir (fun _ => false) pdfOk n rows).errors = [] ∧
    (processRows template today output_dir (fun _ => false) pdfOk n rows).total_processed =
      rows.length ∧
    (processRows template today output_dir (fun _ => false) pdfOk n rows).generated_previews =
      rows.filterMap (previewOf output_dir) ∧
    (processRows template today output_dir (fun _ => false) pdfOk n rows).generated_previews.length =
      rows.length := by
  induction rows with
  | nil => intro n; simp [processRows]
  | cons r rest ih =>
    intro n
    obtain ⟨inv, hp, hg⟩ := h r (List.mem_cons_self r rest)
    obtain ⟨html, hh⟩ := Option.isSome_iff_exists.mp hg
    obtain ⟨e1, e2, e3, e4⟩ := ih (fun x hx => h x (List.mem_cons_of_mem r hx)) (n + 1)
    refine ⟨?_, ?_, ?_, ?_⟩ <;>
      simp [processRows, hp, hh, previewOf, e1, e2, e3, e4, List.filterMap_cons]
    intro a ha
    obtain ⟨inva, hpa, _⟩ := h a (List.mem_cons_of_mem r ha)
    simp [hpa]

/-- C2: in a batch whose second row fails to parse while the first row and
all later rows parse and render, `process_csv` returns an outcome (equal to
the row loop's result) in which: `total_processed` is the row count minus
one, `errors` is exactly one entry carrying row number 2, and the preview
outputs are exactly those of the other rows, one each — a single bad row
does not abort the rest of the batch. -/
theorem claim2_partial_failure (template today output_dir csv_file_path : String)
    (pdfOk : Nat → Bool) (r1 rb : Row) (rest : List Row)
    (h1 : RowOk template today r1)
    (hb : _parse_csv_row rb = none)
    (hrest : ∀ r ∈ rest, RowOk template today r) :
    process_csv template today output_dir csv_file_path (fun _ => false) pdfOk
        (.content (r1 :: rb :: rest)) =
      .ok (processRows template today output_dir (fun _ => false) pdfOk 1
        (r1 :: rb :: rest)) ∧
    (processRows template today output_dir (fun _ => false) pdfOk 1
        (r1 :: rb :: rest)).total_processed = (r1 :: rb :: rest).length - 1 ∧
    (processRows template today output_dir (fun _ => false) pdfOk 1
        (r1 :: rb :: rest)).errors = [.rowError 2 "malformed row"] ∧
    (processRows template today output_dir (fun _ => false) pdfOk 1
        (r1 :: rb :: rest)).generated_previews =
      (r1 :: rest).filterMap (previewOf output_dir) ∧
    (processRows template today output_dir (fun _ => false) pdfOk 1
        (r1 :: rb :: rest)).generated_previews.length = (r1 :: rb :: rest).length - 1 := by
  obtain ⟨inv1, hp1, hg1⟩ := h1
  obtain ⟨html1, hh1⟩ := Option.isSome_iff_exists.mp hg1
  obtain ⟨e1, e2, e3, e4⟩ :=
    processRows_allOk template today output_dir pdfOk rest hrest 3
  refine ⟨rfl, ?_, ?_, ?_, ?_⟩ <;>
    simp [processRows, hp1, hh1, hb, previewOf, e1, e2, e3, e4, List.filterMap_cons]
  intro a ha
  obtain ⟨inva, hpa, _⟩ := hrest a ha
  simp [hpa]

/-- C2 witness: a concrete three-row batch whose second row has a
non-numeric price token. -/
theorem claim2_witness :
    process_csv "T" "2025-06-01" "out" "data.csv" (fun _ => false) (fun _ => false)
        (.content (rowEx :: rowBad :: [rowEx])) =
      .ok (processRows "T" "2025-06-01" "out" (fun _ => false) (fun _ => false) 1
        (rowEx :: rowBad :: [rowEx])) ∧
    (processRows "T" "2025-06-01" "out" (fun _ => false) (fun _ => false) 1
        (rowEx :: rowBad :: [rowEx])).total_processed =
      (rowEx :: rowBad :: [rowEx]).length - 1 ∧
    (processRows "T" "2025-06-01" "out" (fun _ => false) (fun _ => false) 1
        (rowEx :: rowBad :: [rowEx])).errors = [.rowError 2 "malformed row"] ∧
    (processRows "T" "2025-06-01" "out" (fun _ => false) (fun _ => false) 1
        (rowEx :: rowBad :: [rowEx])).generated_previews =
      (rowEx :: [rowEx]).filterMap (previewOf "out") ∧
    (processRows "T" "2025-06-01" "out" (fun _ => false) (fun _ => false) 1
        (rowEx :: rowBad :: [rowEx])).generated_previews.length =
      (rowEx :: rowBad :: [rowEx]).length - 1 :=
  claim2_partial_failure "T" "2025-06-01" "out" "data.csv" (fun _ => false) rowEx rowBad
    [rowEx]
    ⟨invEx, by with_unfolding_all rfl, by with_unfolding_all rfl⟩
    (by with_unfolding_all rfl)
    (by
      intro r hr
      simp only [List.mem_singleton] at hr
      subst hr
      exact ⟨invEx, by with_unfolding_all rfl, by with_unfolding_all rfl⟩)

end GenInvoice
